import Mathlib

/-!
Shallow embedding of the two React context providers of the memers repository:
the Firebase client provider (`src/unnamed/part_000`, `FirebaseProvider`) and
the session provider (`src/providers/AuthProvider.tsx`, `AuthProvider`).

Modelling conventions:
* The session component's React state
  (`user`, `profile`, `authLoading`, `authErrorMessages`) is a record
  `SessionState`, extended with `subscribedUid`, the uid whose profile
  document currently has an open `onSnapshot` subscription (the resource the
  profile `useEffect` manages).
* A `setUser` call is modelled by `setUserState`: React bails out when the new
  state is `Object.is`-equal to the old one, and the profile `useEffect`
  (dependency list `[user, setProfile, myFS]`) re-runs only when `user`
  changed; `profileEffect` is that effect's body together with the cleanup of
  the previous subscription.  (For two distinct but equal `User` objects the
  real effect would close and re-open the same subscription; the resulting
  state is identical, so value equality is a faithful model of the observable
  state.)
* Remote calls (`signInWithEmailAndPassword`, `signOut`,
  `createUserWithEmailAndPassword`, `setDoc`, snapshot deliveries) are
  modelled by passing their outcome as an explicit argument; `undefined` and
  `null` become `Option.none`.
* The Firestore contents are an association list from document path to
  document data; `serverTimestamp()` is the sentinel field value the server
  later resolves.
-/

namespace Memers

/-- A Firebase `User` as the session layer consumes it: the unique `uid` and
the `email` (the only fields `AuthProvider.tsx` reads). -/
structure User where
  uid : String
  email : String
deriving DecidableEq, Repr

/-- A Firestore document field value: a plain value, or the
`serverTimestamp()` sentinel that `registerFunction` writes into
`dateCreated` (resolved server-side). -/
inductive FieldValue where
  | str (s : String)
  | serverTimestamp
deriving DecidableEq, Repr

/-- Firestore `DocumentData`: a record of named fields. -/
abbrev DocData := List (String × FieldValue)

/-- The document-store contents: path ↦ document.  `fsSet` (a `setDoc`)
prepends, `fsGet` finds the most recent write. -/
abbrev Firestore := List (String × DocData)

def fsSet (fs : Firestore) (path : String) (d : DocData) : Firestore :=
  (path, d) :: fs

def fsGet (fs : Firestore) (path : String) : Option DocData :=
  match fs with
  | [] => none
  | (p, d) :: rest => if p = path then some d else fsGet rest path

/-- `doc(myFS, 'users', uid).path` — the path of a profile document
(`PROFILE_COLLECTION = 'users'`). -/
def profileDocPath (uid : String) : String := "users/" ++ uid

/-- The `AuthProvider` component's state.  `user`, `profile`, `authLoading`
and `authErrorMessages` are its four `useState` cells (`authErrorMessages`
starts out `undefined`, i.e. `none`); `subscribedUid` records the open
profile-document subscription. -/
structure SessionState where
  user : Option User
  profile : Option DocData
  authLoading : Bool
  authErrorMessages : Option (List String)
  subscribedUid : Option String
deriving DecidableEq, Repr

/-- The state right after mount: the initial `useState` values; the profile
effect's first run takes the `!user` branch, which leaves them unchanged. -/
def initState : SessionState :=
  { user := none, profile := none, authLoading := true,
    authErrorMessages := none, subscribedUid := none }

/-- The error list as the spec abstracts it: `undefined` carries no
messages. -/
def errMsgs (s : SessionState) : List String := s.authErrorMessages.getD []

/-- Body of the profile `useEffect` (AuthProvider.tsx lines 65–108), run
against the current `user`, together with the cleanup of the previous
subscription: `user?.uid` truthy → (re-)subscribe to `users/<uid>`;
`!user` → reset `authLoading` to true, clear `profile` and
`authErrorMessages`, close the subscription; a `user` with an empty `uid`
matches neither branch, so only the cleanup's unsubscribe happens. -/
def profileEffect (s : SessionState) : SessionState :=
  match s.user with
  | some u =>
      if u.uid = "" then { s with subscribedUid := none }
      else { s with subscribedUid := some u.uid }
  | none =>
      { s with authLoading := true, profile := none,
               authErrorMessages := none, subscribedUid := none }

/-- `setUser u` followed by React's processing: bail out when the value is
unchanged, otherwise re-render and re-run the profile effect (whose
dependency `user` changed). -/
def setUserState (s : SessionState) (u : Option User) : SessionState :=
  if s.user = u then s else profileEffect { s with user := u }

/-- One `onAuthStateChanged` callback (lines 55–58): `setUser(user)` then
`setAuthLoading(false)`, after which the profile effect re-runs exactly when
`user` changed. -/
def handleAuthEvent (s : SessionState) (u : Option User) : SessionState :=
  setUserState { s with authLoading := false } u

/-- The session state after the component processes a sequence of
identity-stream events, starting from the mounted initial state. -/
def processAuthEvents (s : SessionState) (evs : List (Option User)) : SessionState :=
  evs.foldl handleAuthEvent s

/-- The `onSnapshot` data callback (lines 70–83) for the subscription on
`users/<uid>`: missing data → replace `authErrorMessages` with the
not-found message and store `undefined` as the profile; otherwise store the
document's fields. -/
def handleSnapshot (s : SessionState) (uid : String) (data : Option DocData) :
    SessionState :=
  match data with
  | some d => { s with profile := some d }
  | none =>
      { s with
          authErrorMessages :=
            some ["No profile doc found in Firestore at: " ++ profileDocPath uid],
          profile := none }

/-- The `onSnapshot` error callback (lines 84–93): replace
`authErrorMessages` with the failure message plus the provisioning hint;
nothing else changes. -/
def handleSnapshotError (s : SessionState) (msg : String) : SessionState :=
  { s with
      authErrorMessages :=
        some [msg, "Have you initialized your Firestore database?"] }

/-- A document-stream data event reaches the component only through the open
subscription. -/
def handleDocEvent (s : SessionState) (data : Option DocData) : SessionState :=
  match s.subscribedUid with
  | some uid => handleSnapshot s uid data
  | none => s

/-- A document-stream error event reaches the component only through the open
subscription. -/
def handleDocError (s : SessionState) (msg : String) : SessionState :=
  match s.subscribedUid with
  | some _ => handleSnapshotError s msg
  | none => s

/-- The document store resolving the open subscription: it delivers the
document stored at `users/<subscribed uid>` (or `none`). -/
def deliverSnapshot (s : SessionState) (fs : Firestore) : SessionState :=
  match s.subscribedUid with
  | some uid => handleSnapshot s uid (fsGet fs (profileDocPath uid))
  | none => s

/-- `loginFunction` (lines 165–193), with the outcome of
`signInWithEmailAndPassword` passed explicitly: success stores the returned
user via `setUser` and returns true; the `catch` replaces
`authErrorMessages` with the message and returns false. -/
def loginFunction (s : SessionState) (r : Except String User) :
    SessionState × Bool :=
  match r with
  | Except.ok u => (setUserState s (some u), true)
  | Except.error msg =>
      ({ s with authErrorMessages := some [msg] }, false)

/-- `logoutFunction` (lines 195–209): `setUser(null)` first, then `signOut`;
`none` means `signOut` resolved, `some msg` that it threw `msg`. -/
def logoutFunction (s : SessionState) (signOutError : Option String) :
    SessionState × Bool :=
  let s1 := setUserState s none
  match signOutError with
  | none => (s1, true)
  | some msg => ({ s1 with authErrorMessages := some [msg] }, false)

/-- Outcome of `registerFunction`'s remote calls: phase (a)
`createUserWithEmailAndPassword` threw, or it returned a credential for `u`
and phase (b) `setDoc` either resolved (`none`) or threw (`some msg`). -/
inductive RegisterOutcome where
  | createFail (msg : String)
  | created (u : User) (writeError : Option String)

def emailProviderHint : String :=
  "Did you enable the Email Provider in Firebase Auth?"

def firestoreEnableHint : String :=
  "Did you enable the Firestore Database in your Firebase project?"

def firestoreInitHint : String :=
  "Have you initialized your Firestore database?"

/-- The document `registerFunction` writes at `users/<uid>` (lines 143–149):
`{uid, email, displayName, dateCreated: serverTimestamp()}`. -/
def registerDocData (uid email displayName : String) : DocData :=
  [("uid", FieldValue.str uid), ("email", FieldValue.str email),
   ("displayName", FieldValue.str displayName),
   ("dateCreated", FieldValue.serverTimestamp)]

/-- The effect of `registerFunction` on the component's state: each `catch`
replaces `authErrorMessages` with the message plus its hint; no other state
cell is touched (in particular `registerFunction` never calls `setUser`). -/
def registerSession (s : SessionState) (o : RegisterOutcome) : SessionState :=
  match o with
  | RegisterOutcome.createFail msg =>
      { s with authErrorMessages := some [msg, emailProviderHint] }
  | RegisterOutcome.created _ none => s
  | RegisterOutcome.created _ (some msg) =>
      { s with authErrorMessages := some [msg, firestoreEnableHint] }

/-- Result of a `registerFunction` call: the component state, the document
store, the identity service's account list, and the returned boolean. -/
structure RegisterResult where
  session : SessionState
  store : Firestore
  accounts : List User
  ok : Bool
deriving Repr

/-- `registerFunction` (lines 117–163).  `displayName = none` models the
omitted optional parameter, whose TypeScript default is `''`. -/
def registerFunction (s : SessionState) (fs : Firestore) (accounts : List User)
    (email _password : String) (displayName : Option String)
    (o : RegisterOutcome) : RegisterResult :=
  match o with
  | RegisterOutcome.createFail _ =>
      { session := registerSession s o, store := fs, accounts := accounts,
        ok := false }
  | RegisterOutcome.created u none =>
      { session := registerSession s o,
        store := fsSet fs (profileDocPath u.uid)
          (registerDocData u.uid email (displayName.getD "")),
        accounts := accounts ++ [u], ok := true }
  | RegisterOutcome.created u (some _) =>
      { session := registerSession s o, store := fs,
        accounts := accounts ++ [u], ok := false }

/-- Any state-changing interaction the session component handles: the two
external streams and the three imperative operations (each with its remote
outcome made explicit).  `registerFunction`'s store and account effects do
not feed back into the component state, so the step keeps only its session
effect. -/
inductive SessionEvent where
  | authChange (u : Option User)
  | docData (d : Option DocData)
  | docError (msg : String)
  | loginOp (r : Except String User)
  | logoutOp (r : Option String)
  | registerOp (o : RegisterOutcome)

def stepSession (s : SessionState) (e : SessionEvent) : SessionState :=
  match e with
  | SessionEvent.authChange u => handleAuthEvent s u
  | SessionEvent.docData d => handleDocEvent s d
  | SessionEvent.docError msg => handleDocError s msg
  | SessionEvent.loginOp r => (loginFunction s r).1
  | SessionEvent.logoutOp r => (logoutFunction s r).1
  | SessionEvent.registerOp o => registerSession s o

def processEvents (evs : List SessionEvent) : SessionState :=
  evs.foldl stepSession initState

/-- What a consumer can read out of the `AuthContext`: the
`{} as AuthContextValues` default that `createContext` was given, or a value
the provider supplied. -/
inductive ContextContent where
  | empty
  | value (s : SessionState)
deriving DecidableEq

/-- `AuthContext`'s default value (AuthProvider.tsx lines 33–35):
`{} as AuthContextValues`, an empty object — not `undefined`. -/
def authContextDefault : ContextContent := ContextContent.empty

/-- React's `useContext(AuthContext)`: the nearest provider's value when one
is above the caller (`some providerValue`), and the context's default value
otherwise; it yields `undefined` (`none`) only when the default itself is
`undefined`. -/
def useContextAuth (providerValue : Option ContextContent) :
    Option ContextContent :=
  match providerValue with
  | some v => some v
  | none => some authContextDefault

/-- `useAuthContext` (lines 247–257): read the context and throw
`useAuthContext was used outside of its Provider` when it is `undefined`,
returning it otherwise. -/
def useAuthContext (providerValue : Option ContextContent) :
    Except String ContextContent :=
  match useContextAuth providerValue with
  | none => Except.error "useAuthContext was used outside of its Provider"
  | some ctx => Except.ok ctx

/-- The Firebase configuration record as the provider checks it: only
`projectId` is inspected; `none` models an absent field. -/
structure FirebaseConfig where
  projectId : Option String
deriving DecidableEq, Repr

/-- The template value the provider's check looks for with
`projectId.includes('memers-29baa')`. -/
def placeholderProjectId : String := "memers-29baa"

/-- JavaScript `s.includes(sub)`: substring containment. -/
def strIncludes (s sub : String) : Bool :=
  decide (sub.toList <:+: s.toList)

/-- The validity check in `FirebaseProvider` (part_000 lines 32–39):
`!myFirebaseConfig?.projectId || myFirebaseConfig.projectId.includes('memers-29baa')`
(an absent or empty `projectId` is falsy). -/
def configInvalid (cfg : FirebaseConfig) : Bool :=
  match cfg.projectId with
  | none => true
  | some pid => pid == "" || strIncludes pid placeholderProjectId

/-- The `FirebaseProvider` body as far as the configuration is concerned:
whether the `console.error` diagnostic fires, and the (always successful)
continuation of the render — the check throws nothing and initialization
proceeds regardless. -/
def firebaseProviderInit (cfg : FirebaseConfig) : Bool × Except String Unit :=
  (configInvalid cfg, Except.ok ())

theorem profileEffect_of_user_none (s : SessionState) (h : s.user = none) :
    profileEffect s =
      { s with authLoading := true, profile := none,
               authErrorMessages := none, subscribedUid := none } := by
  unfold profileEffect
  rw [h]

theorem profileEffect_of_user_some (s : SessionState) (v : User)
    (h : s.user = some v) :
    profileEffect s =
      { s with subscribedUid := if v.uid = "" then none else some v.uid } := by
  unfold profileEffect
  rw [h]
  by_cases hc : v.uid = "" <;> simp [hc]

theorem setUserState_of_eq (s : SessionState) (u : Option User)
    (h : s.user = u) : setUserState s u = s := by
  unfold setUserState
  rw [if_pos h]

theorem setUserState_none_of_ne (s : SessionState) (h : ¬ s.user = none) :
    setUserState s none =
      { s with user := none, authLoading := true, profile := none,
               authErrorMessages := none, subscribedUid := none } := by
  unfold setUserState
  rw [if_neg h, profileEffect_of_user_none { s with user := none } rfl]

theorem setUserState_some_of_ne (s : SessionState) (v : User)
    (h : ¬ s.user = some v) :
    setUserState s (some v) =
      { s with user := some v,
               subscribedUid := if v.uid = "" then none else some v.uid } := by
  unfold setUserState
  rw [if_neg h, profileEffect_of_user_some { s with user := some v } v rfl]

theorem setUserState_user (s : SessionState) (u : Option User) :
    (setUserState s u).user = u := by
  by_cases h : s.user = u
  · rw [setUserState_of_eq s u h]; exact h
  · cases u with
    | none => rw [setUserState_none_of_ne s h]
    | some v => rw [setUserState_some_of_ne s v h]

theorem handleSnapshot_user (s : SessionState) (uid : String)
    (d : Option DocData) : (handleSnapshot s uid d).user = s.user := by
  cases d <;> rfl

theorem handleSnapshot_authLoading (s : SessionState) (uid : String)
    (d : Option DocData) :
    (handleSnapshot s uid d).authLoading = s.authLoading := by
  cases d <;> rfl

/-- Invariant of the states the component reaches through identity-stream
events alone: an absent identity comes with a cleared profile, cleared
errors and no subscription, and a present identity with a nonempty uid comes
with a subscription on exactly that uid. -/
def AuthInv (s : SessionState) : Prop :=
  (s.user = none →
    s.profile = none ∧ s.authErrorMessages = none ∧ s.subscribedUid = none) ∧
  ∀ v : User, s.user = some v →
    s.subscribedUid = if v.uid = "" then none else some v.uid

theorem authInv_initState : AuthInv initState := by
  constructor
  · intro _; exact ⟨rfl, rfl, rfl⟩
  · intro v hv; simp [initState] at hv

theorem handleAuthEvent_none_char (s : SessionState) (hs : AuthInv s) :
    handleAuthEvent s none =
      { user := none, profile := none, authLoading := s.user.isSome,
        authErrorMessages := none, subscribedUid := none } := by
  unfold handleAuthEvent
  by_cases h : s.user = none
  · have h' : ({ s with authLoading := false } : SessionState).user = none := h
    rw [setUserState_of_eq _ _ h']
    obtain ⟨hp, he, hsub⟩ := hs.1 h
    cases s
    simp_all
  · have h' : ¬ ({ s with authLoading := false } : SessionState).user = none := h
    rw [setUserState_none_of_ne _ h']
    cases s with
    | mk su sp sl se ss =>
      cases su with
      | none => exact absurd rfl h
      | some v => simp

theorem handleAuthEvent_some_char (s : SessionState) (hs : AuthInv s)
    (v : User) :
    (handleAuthEvent s (some v)).user = some v ∧
    (handleAuthEvent s (some v)).authLoading = false ∧
    (handleAuthEvent s (some v)).subscribedUid =
      (if v.uid = "" then none else some v.uid) ∧
    (handleAuthEvent s (some v)).profile = s.profile ∧
    (handleAuthEvent s (some v)).authErrorMessages = s.authErrorMessages := by
  unfold handleAuthEvent
  by_cases h : s.user = some v
  · have h' : ({ s with authLoading := false } : SessionState).user = some v := h
    rw [setUserState_of_eq _ _ h']
    exact ⟨h, rfl, hs.2 v h, rfl, rfl⟩
  · have h' : ¬ ({ s with authLoading := false } : SessionState).user = some v := h
    rw [setUserState_some_of_ne _ v h']
    exact ⟨rfl, rfl, rfl, rfl, rfl⟩

theorem authInv_handleAuthEvent (s : SessionState) (hs : AuthInv s)
    (u : Option User) : AuthInv (handleAuthEvent s u) := by
  cases u with
  | none =>
      rw [handleAuthEvent_none_char s hs]
      exact ⟨fun _ => ⟨rfl, rfl, rfl⟩, fun v hv => by simp at hv⟩
  | some v =>
      obtain ⟨h1, _, h3, _, _⟩ := handleAuthEvent_some_char s hs v
      constructor
      · intro hu; rw [h1] at hu; cases hu
      · intro w hw
        rw [h1] at hw
        obtain rfl : v = w := Option.some.inj hw
        exact h3

theorem authInv_processAuthEvents (evs : List (Option User)) :
    ∀ s : SessionState, AuthInv s → AuthInv (processAuthEvents s evs) := by
  induction evs with
  | nil => intro s hs; exact hs
  | cons e t ih =>
      intro s hs
      exact ih (handleAuthEvent s e) (authInv_handleAuthEvent s hs e)

theorem authInv_reached (evs : List (Option User)) :
    AuthInv (processAuthEvents initState evs) :=
  authInv_processAuthEvents evs initState authInv_initState

theorem processAuthEvents_append (s : SessionState)
    (l1 l2 : List (Option User)) :
    processAuthEvents s (l1 ++ l2) =
      processAuthEvents (processAuthEvents s l1) l2 := by
  simp [processAuthEvents, List.foldl_append]

/-- The safety property of claim C8, as an inductive invariant: whenever the
identity is absent, both the profile and the subscription are absent. -/
def SessionInv (s : SessionState) : Prop :=
  s.user = none → s.profile = none ∧ s.subscribedUid = none

theorem sessionInv_setUserState_none (s : SessionState) (hs : SessionInv s) :
    SessionInv (setUserState s none) := by
  by_cases h : s.user = none
  · rw [setUserState_of_eq s none h]; exact hs
  · rw [setUserState_none_of_ne s h]
    exact fun _ => ⟨rfl, rfl⟩

theorem sessionInv_stepSession (s : SessionState) (hs : SessionInv s)
    (e : SessionEvent) : SessionInv (stepSession s e) := by
  cases e with
  | authChange u =>
      cases u with
      | none =>
          show SessionInv (setUserState { s with authLoading := false } none)
          exact sessionInv_setUserState_none _ (fun h => hs h)
      | some v =>
          intro hu
          rw [show (stepSession s (SessionEvent.authChange (some v))).user
                = some v from setUserState_user _ _] at hu
          cases hu
  | docData d =>
      show SessionInv (handleDocEvent s d)
      unfold handleDocEvent
      cases hsub : s.subscribedUid with
      | none => exact hs
      | some uid =>
          intro hu
          rw [handleSnapshot_user] at hu
          have := (hs hu).2
          rw [hsub] at this
          cases this
  | docError msg =>
      show SessionInv (handleDocError s msg)
      unfold handleDocError
      cases hsub : s.subscribedUid with
      | none => exact hs
      | some uid =>
          intro hu
          have := (hs hu).2
          rw [hsub] at this
          cases this
  | loginOp r =>
      cases r with
      | ok u =>
          intro hu
          rw [show (stepSession s (SessionEvent.loginOp (Except.ok u))).user
                = some u from setUserState_user _ _] at hu
          cases hu
      | error msg => exact fun h => hs h
  | logoutOp r =>
      cases r with
      | none => exact sessionInv_setUserState_none s hs
      | some msg =>
          intro hu
          exact sessionInv_setUserState_none s hs hu
  | registerOp o =>
      cases o with
      | createFail msg => exact fun h => hs h
      | created u we =>
          cases we with
          | none => exact hs
          | some msg => exact fun h => hs h

theorem sessionInv_processEvents (evs : List SessionEvent) :
    SessionInv (processEvents evs) := by
  have h : ∀ s : SessionState, SessionInv s →
      SessionInv (evs.foldl stepSession s) := by
    induction evs with
    | nil => intro s hs; exact hs
    | cons e t ih =>
        intro s hs
        exact ih (stepSession s e) (sessionInv_stepSession s hs e)
  exact h initState (fun _ => ⟨rfl, rfl⟩)

theorem strIncludes_refl (s : String) : strIncludes s s = true := by
  simp [strIncludes, List.infix_refl]

theorem deliverSnapshot_of_sub (s : SessionState) (uid : String)
    (fs : Firestore) (h : s.subscribedUid = some uid) :
    deliverSnapshot s fs = handleSnapshot s uid (fsGet fs (profileDocPath uid)) := by
  unfold deliverSnapshot
  rw [h]

/-- A sample signed-in user (spec scenario 3). -/
def sampleUser : User := { uid := "u1", email := "a@x.com" }

/-- The profile document of spec scenario 3. -/
def carlDoc : DocData := [("displayName", FieldValue.str "Carl")]

/-- A document store holding scenario 3's profile document. -/
def sampleFS : Firestore := [("users/u1", carlDoc)]

/-- Claim C1 counterexample: a login failure handled while an earlier error
string is recorded leaves only the new message — `setAuthErrorMessages` is
called with a fresh one-element array, so the previously recorded
`old error` is discarded rather than preserved by appending. -/
theorem login_failure_discards_prior_errors :
    errMsgs ((loginFunction
        { initState with authErrorMessages := some ["old error"] }
        (Except.error "invalid password")).1) = ["invalid password"] ∧
    ["invalid password"] ≠ ["old error", "invalid password"] :=
  ⟨rfl, by decide⟩

/-- Claim C1 (amended): every failure handled by the session component
(login failure, logout failure, either phase of register failing, the
document-subscription error callback, and a missing profile document)
replaces the session's `errorMessages` with exactly the new message(s) —
the message plus the site's hint string where one exists — independent of,
and discarding, whatever error strings were recorded before. -/
theorem handled_failures_replace_errors (s : SessionState) (msg uid : String)
    (u : User) :
    errMsgs (loginFunction s (Except.error msg)).1 = [msg] ∧
    errMsgs (logoutFunction s (some msg)).1 = [msg] ∧
    errMsgs (registerSession s (RegisterOutcome.createFail msg))
      = [msg, emailProviderHint] ∧
    errMsgs (registerSession s (RegisterOutcome.created u (some msg)))
      = [msg, firestoreEnableHint] ∧
    errMsgs (handleSnapshotError s msg) = [msg, firestoreInitHint] ∧
    errMsgs (handleSnapshot s uid none)
      = ["No profile doc found in Firestore at: " ++ profileDocPath uid] :=
  ⟨rfl, rfl, rfl, rfl, rfl, rfl⟩

/-- Claim C2: evaluated outside of its provider, `useAuthContext` returns
the context's default value `{} as AuthContextValues` successfully instead
of throwing — `useContext` yields the `createContext` default, which is not
`undefined`, so the `context === undefined` guard never fires. -/
theorem useAuthContext_outside_returns_default :
    useAuthContext none = Except.ok ContextContent.empty := rfl

/-- Claim C3: `register` is two-phase.  Identity-creation failure records
the message with the identity-provider hint and returns false with the
document store untouched and no account created; on success it writes
`{uid, email, displayName (default empty), dateCreated: serverTimestamp}`
at `users/<new id>` and returns true; a write failure records the message
with the document-store provisioning hint and returns false with the store
unchanged, the identity nevertheless created, and the session's profile
untouched. -/
theorem register_two_phase (s : SessionState) (fs : Firestore)
    (accounts : List User) (email pw msg : String) (dn : Option String)
    (u : User) :
    ((registerFunction s fs accounts email pw dn
        (RegisterOutcome.createFail msg)).store = fs ∧
      (registerFunction s fs accounts email pw dn
        (RegisterOutcome.createFail msg)).accounts = accounts ∧
      (registerFunction s fs accounts email pw dn
        (RegisterOutcome.createFail msg)).ok = false ∧
      errMsgs (registerFunction s fs accounts email pw dn
        (RegisterOutcome.createFail msg)).session
        = [msg, emailProviderHint]) ∧
    ((registerFunction s fs accounts email pw dn
        (RegisterOutcome.created u none)).ok = true ∧
      fsGet (registerFunction s fs accounts email pw dn
          (RegisterOutcome.created u none)).store (profileDocPath u.uid)
        = some (registerDocData u.uid email (dn.getD "")) ∧
      u ∈ (registerFunction s fs accounts email pw dn
        (RegisterOutcome.created u none)).accounts ∧
      (registerFunction s fs accounts email pw dn
        (RegisterOutcome.created u none)).session = s) ∧
    ((registerFunction s fs accounts email pw dn
        (RegisterOutcome.created u (some msg))).ok = false ∧
      (registerFunction s fs accounts email pw dn
        (RegisterOutcome.created u (some msg))).store = fs ∧
      u ∈ (registerFunction s fs accounts email pw dn
        (RegisterOutcome.created u (some msg))).accounts ∧
      errMsgs (registerFunction s fs accounts email pw dn
        (RegisterOutcome.created u (some msg))).session
        = [msg, firestoreEnableHint] ∧
      (registerFunction s fs accounts email pw dn
        (RegisterOutcome.created u (some msg))).session.profile
        = s.profile) := by
  refine ⟨⟨rfl, rfl, rfl, rfl⟩, ⟨rfl, ?_, ?_, rfl⟩, ⟨rfl, rfl, ?_, rfl, rfl⟩⟩
  · show fsGet (fsSet fs (profileDocPath u.uid) _) (profileDocPath u.uid)
      = _
    simp [fsGet, fsSet]
  · simp [registerFunction]
  · simp [registerFunction]

/-- Claim C4: on sign-in success `login` stores the returned identity in the
component state and returns true; on failure it records the error message,
returns false, and leaves the identity state unchanged. -/
theorem login_stores_identity_or_records_error (s : SessionState) (u : User)
    (msg : String) :
    (loginFunction s (Except.ok u)).1.user = some u ∧
    (loginFunction s (Except.ok u)).2 = true ∧
    (loginFunction s (Except.error msg)).1.user = s.user ∧
    errMsgs (loginFunction s (Except.error msg)).1 = [msg] ∧
    (loginFunction s (Except.error msg)).2 = false :=
  ⟨setUserState_user s (some u), rfl, rfl, rfl, rfl⟩

/-- Claim C5: `logout` leaves the local identity `none` whatever the
sign-out outcome (it clears it before invoking sign-out), returns true on
sign-out success, and on sign-out failure records the error and returns
false. -/
theorem logout_clears_identity (s : SessionState) (msg : String) :
    (∀ r : Option String, ((logoutFunction s r).1).user = none) ∧
    (logoutFunction s none).2 = true ∧
    (logoutFunction s (some msg)).2 = false ∧
    errMsgs (logoutFunction s (some msg)).1 = [msg] := by
  refine ⟨fun r => ?_, rfl, rfl, rfl⟩
  cases r with
  | none => exact setUserState_user s none
  | some m => exact setUserState_user s none

/-- Claim C6 counterexample: the single-event stream delivering `none` to
the freshly mounted component leaves `loading = false`, not `true` — the
callback sets `authLoading` to false and the reset effect does not re-run
because the `user` state did not change (it was already `null`). -/
theorem authStream_single_none_not_loading :
    (processAuthEvents initState [none]).authLoading = false ∧
    ¬ (processAuthEvents initState [none]).authLoading = true := by
  decide

/-- Claim C6 (amended): after any identity-stream event sequence whose last
event delivers `none`, the component's final state has no identity, no
profile document and an empty error list; `loading` is true exactly when
that final event cleared a previously present identity — when the identity
was already `none`, the stream callback leaves `loading = false` (the reset
effect does not re-run for an unchanged identity value). -/
theorem authStream_ending_none (evs : List (Option User)) :
    (processAuthEvents initState (evs ++ [none])).user = none ∧
    (processAuthEvents initState (evs ++ [none])).profile = none ∧
    errMsgs (processAuthEvents initState (evs ++ [none])) = [] ∧
    (processAuthEvents initState (evs ++ [none])).authLoading
      = (processAuthEvents initState evs).user.isSome := by
  rw [processAuthEvents_append]
  have h1 : processAuthEvents (processAuthEvents initState evs) [none]
      = handleAuthEvent (processAuthEvents initState evs) none := rfl
  rw [h1, handleAuthEvent_none_char _ (authInv_reached evs)]
  exact ⟨rfl, rfl, rfl, rfl⟩

/-- Claim C7: after an identity-stream sequence ending in an identity whose
uid is nonempty, once the document store resolves the open subscription the
session has `loading = false`, its profile equals the document stored at
`users/<uid>` (so `none` exactly when no document exists there), and in the
missing-document case the error list is exactly the not-found message naming
that path, while an existing document leaves the error list as it was. -/
theorem settle_after_identity (evs : List (Option User)) (u : User)
    (fs : Firestore) (h : ¬ u.uid = "") :
    (deliverSnapshot (processAuthEvents initState (evs ++ [some u]))
        fs).authLoading = false ∧
    (deliverSnapshot (processAuthEvents initState (evs ++ [some u]))
        fs).profile = fsGet fs (profileDocPath u.uid) ∧
    errMsgs (deliverSnapshot (processAuthEvents initState (evs ++ [some u]))
        fs)
      = (if (fsGet fs (profileDocPath u.uid)).isNone
         then ["No profile doc found in Firestore at: "
                ++ profileDocPath u.uid]
         else errMsgs (processAuthEvents initState (evs ++ [some u]))) := by
  have hinv := authInv_reached evs
  rw [processAuthEvents_append]
  have h1 : processAuthEvents (processAuthEvents initState evs) [some u]
      = handleAuthEvent (processAuthEvents initState evs) (some u) := rfl
  rw [h1]
  obtain ⟨_, hl, hsub, _, _⟩ :=
    handleAuthEvent_some_char (processAuthEvents initState evs) hinv u
  set t := handleAuthEvent (processAuthEvents initState evs) (some u) with ht
  have hsub' : t.subscribedUid = some u.uid := by
    rw [hsub, if_neg h]
  rw [deliverSnapshot_of_sub t u.uid fs hsub']
  rcases hfs : fsGet fs (profileDocPath u.uid) with _ | d
  · refine ⟨?_, rfl, ?_⟩
    · rw [handleSnapshot_authLoading]; exact hl
    · simp [handleSnapshot, errMsgs]
  · refine ⟨?_, rfl, ?_⟩
    · rw [handleSnapshot_authLoading]; exact hl
    · simp [handleSnapshot, errMsgs]

/-- Claim C7 witness: scenario 3 of the spec — identity `u1` arrives and the
store holds `users/u1 = {displayName: Carl}`; the session settles on that
document with `loading = false`. -/
theorem settle_after_identity_witness :
    (¬ sampleUser.uid = "") ∧
    ((deliverSnapshot (processAuthEvents initState ([] ++ [some sampleUser]))
        sampleFS).authLoading = false ∧
    (deliverSnapshot (processAuthEvents initState ([] ++ [some sampleUser]))
        sampleFS).profile = fsGet sampleFS (profileDocPath sampleUser.uid) ∧
    errMsgs (deliverSnapshot
        (processAuthEvents initState ([] ++ [some sampleUser])) sampleFS)
      = (if (fsGet sampleFS (profileDocPath sampleUser.uid)).isNone
         then ["No profile doc found in Firestore at: "
                ++ profileDocPath sampleUser.uid]
         else errMsgs (processAuthEvents initState
                ([] ++ [some sampleUser])))) :=
  ⟨by decide, settle_after_identity [] sampleUser sampleFS (by decide)⟩

/-- Claim C8: after any sequence of session events (identity-stream events,
document-stream data and error events, login, logout, register), a non-none
profile document implies a non-none identity. -/
theorem profile_requires_identity (evs : List SessionEvent)
    (h : ¬ (processEvents evs).profile = none) :
    ¬ (processEvents evs).user = none := by
  intro hu
  exact h (sessionInv_processEvents evs hu).1

/-- Claim C8 witness: the identity `u1` arrives and its profile document is
delivered; the profile is present and so is the identity. -/
theorem profile_requires_identity_witness :
    (¬ (processEvents [SessionEvent.authChange (some sampleUser),
          SessionEvent.docData (some carlDoc)]).profile = none) ∧
    ¬ (processEvents [SessionEvent.authChange (some sampleUser),
          SessionEvent.docData (some carlDoc)]).user = none :=
  ⟨by decide, profile_requires_identity _ (by decide)⟩

/-- Claim C9: for a configuration whose `projectId` is absent, empty, or the
known placeholder value, the client provider emits the diagnostic and its
initialization still proceeds without raising. -/
theorem config_diagnostic_nonfatal (cfg : FirebaseConfig)
    (h : cfg.projectId = none ∨ cfg.projectId = some "" ∨
         cfg.projectId = some placeholderProjectId) :
    (firebaseProviderInit cfg).1 = true ∧
    (firebaseProviderInit cfg).2 = Except.ok () := by
  refine ⟨?_, rfl⟩
  rcases h with h | h | h
  · simp [firebaseProviderInit, configInvalid, h]
  · simp [firebaseProviderInit, configInvalid, h]
  · simp [firebaseProviderInit, configInvalid, h, strIncludes_refl]

/-- Claim C9 witness: an absent `projectId` triggers the diagnostic while
initialization proceeds. -/
theorem config_diagnostic_nonfatal_witness :
    ((FirebaseConfig.mk none).projectId = none ∨
     (FirebaseConfig.mk none).projectId = some "" ∨
     (FirebaseConfig.mk none).projectId = some placeholderProjectId) ∧
    ((firebaseProviderInit (FirebaseConfig.mk none)).1 = true ∧
     (firebaseProviderInit (FirebaseConfig.mk none)).2 = Except.ok ()) :=
  ⟨Or.inl rfl, config_diagnostic_nonfatal _ (Or.inl rfl)⟩

/-- Claim C10: the document-subscription error callback modifies only
`errorMessages` (replacing it with the failure message plus the provisioning
hint); the identity, the profile document, the loading flag and the open
subscription are all left unchanged. -/
theorem snapshot_error_frame (s : SessionState) (msg : String) :
    (handleSnapshotError s msg).user = s.user ∧
    (handleSnapshotError s msg).profile = s.profile ∧
    (handleSnapshotError s msg).authLoading = s.authLoading ∧
    (handleSnapshotError s msg).subscribedUid = s.subscribedUid ∧
    errMsgs (handleSnapshotError s msg) = [msg, firestoreInitHint] :=
  ⟨rfl, rfl, rfl, rfl, rfl⟩

end Memers
